import Mathlib

/-!
Verification of the chorus gateway frame classification, voice event
dispatch shape, and invite-flag deserialization against the repository's
natural-language specification.

The embedding covers:
* `src/gateway/message.rs` (`GatewayMessage` and its classifier methods),
  together with the parts of the `tungstenite` WebSocket `Message` type the
  classifier calls (`to_string`/`Display`, `to_text`, `is_text`, `is_close`,
  `len`, `is_empty`);
* `src/voice/gateway/events.rs` (`VoiceEvents`);
* `src/types/schema/channel.rs` (`InviteFlags` and its serde `Deserialize`
  implementation, on top of the `bitflags` crate's `from_bits`).
-/

/-- Close frame carried by a WebSocket close message
(tungstenite `CloseFrame`: a close code and a reason string). -/
structure CloseFrame where
  code : Nat
  reason : String
deriving DecidableEq

/-- The tungstenite WebSocket `Message` enum: text, binary, ping, pong and
close frames.  Binary/ping/pong bodies are byte lists (each entry a `u8`
value).  The raw `Frame` variant, which the chorus classifier never
constructs, is omitted. -/
inductive Message where
  | text (s : String)
  | binary (d : List Nat)
  | ping (d : List Nat)
  | pong (d : List Nat)
  | close (c : Option CloseFrame)
deriving DecidableEq

/-- UTF-8 validation/decoding of a byte list, as performed by Rust's
`str::from_utf8` (RFC 3629: rejects overlong encodings, surrogates and
code points above U+10FFFF).  Returns `none` exactly when the bytes are
not valid UTF-8. -/
def utf8DecodeAux : List Nat → Option (List Char)
  | [] => some []
  | b0 :: rest =>
    if b0 ≤ 0x7F then
      (utf8DecodeAux rest).map (fun cs => Char.ofNat b0 :: cs)
    else if b0 < 0xC2 then none
    else if b0 ≤ 0xDF then
      match rest with
      | b1 :: rest1 =>
        if 0x80 ≤ b1 && b1 ≤ 0xBF then
          (utf8DecodeAux rest1).map
            (fun cs => Char.ofNat ((b0 - 0xC0) * 64 + (b1 - 0x80)) :: cs)
        else none
      | [] => none
    else if b0 ≤ 0xEF then
      match rest with
      | b1 :: b2 :: rest2 =>
        let lo1 := if b0 = 0xE0 then 0xA0 else 0x80
        let hi1 := if b0 = 0xED then 0x9F else 0xBF
        if (lo1 ≤ b1 && b1 ≤ hi1) && (0x80 ≤ b2 && b2 ≤ 0xBF) then
          (utf8DecodeAux rest2).map
            (fun cs =>
              Char.ofNat ((b0 - 0xE0) * 4096 + (b1 - 0x80) * 64 + (b2 - 0x80)) :: cs)
        else none
      | _ => none
    else if b0 ≤ 0xF4 then
      match rest with
      | b1 :: b2 :: b3 :: rest3 =>
        let lo1 := if b0 = 0xF0 then 0x90 else 0x80
        let hi1 := if b0 = 0xF4 then 0x8F else 0xBF
        if ((lo1 ≤ b1 && b1 ≤ hi1) && (0x80 ≤ b2 && b2 ≤ 0xBF)) && (0x80 ≤ b3 && b3 ≤ 0xBF) then
          (utf8DecodeAux rest3).map
            (fun cs =>
              Char.ofNat ((b0 - 0xF0) * 262144 + (b1 - 0x80) * 4096
                + (b2 - 0x80) * 64 + (b3 - 0x80)) :: cs)
        else none
      | _ => none
    else none

/-- UTF-8 decoding of a byte list to a string (`str::from_utf8`). -/
def utf8Decode (d : List Nat) : Option String :=
  (utf8DecodeAux d).map String.mk

/-- tungstenite `Message::is_text`. -/
def Message.is_text : Message → Bool
  | .text _ => true
  | _ => false

/-- tungstenite `Message::is_close`. -/
def Message.is_close : Message → Bool
  | .close _ => true
  | _ => false

/-- tungstenite `Message::len`: byte length of the message body. -/
def Message.len : Message → Nat
  | .text s => s.utf8ByteSize
  | .binary d | .ping d | .pong d => d.length
  | .close none => 0
  | .close (some f) => f.reason.utf8ByteSize

/-- tungstenite `Message::is_empty`: `self.len() == 0`. -/
def Message.is_empty (m : Message) : Bool :=
  m.len == 0

/-- tungstenite `Message::to_text`: text frames yield their string,
binary/ping/pong frames are UTF-8 decoded (`Err`, modelled as `none`, on
invalid UTF-8), and close frames always succeed, yielding the close reason
(or the empty string when no close frame body is present). -/
def Message.to_text : Message → Option String
  | .text s => some s
  | .binary d | .ping d | .pong d => utf8Decode d
  | .close none => some ""
  | .close (some f) => some f.reason

/-- tungstenite `impl Display for Message` (what `Message::to_string`
produces): the `to_text` result when it succeeds, otherwise the literal
fallback `Binary Data<length=N>`. -/
def Message.display (m : Message) : String :=
  match m.to_text with
  | some s => s
  | none => "Binary Data<length=" ++ toString m.len ++ ">"

/-- Modelled from the spec: the closed `GatewayError` enum of §3 (the enum
itself is declared in the repository's errors module, which is not included
under `src/`; all fourteen variants are referenced by name in
`gateway/message.rs`). -/
inductive GatewayError where
  | Unknown
  | UnknownOpcode
  | Decode
  | NotAuthenticated
  | AuthenticationFailed
  | AlreadyAuthenticated
  | InvalidSequenceNumber
  | RateLimited
  | SessionTimedOut
  | InvalidShard
  | ShardingRequired
  | InvalidAPIVersion
  | InvalidIntents
  | DisallowedIntents
deriving DecidableEq

/-- The error-text/close-code table of `GatewayMessage::error`, written as
an association list: every string pattern of the `match` in
`gateway/message.rs` paired with the `GatewayError` it maps to. -/
def errorTable : List (String × GatewayError) :=
  [("unknown error", .Unknown), ("4000", .Unknown),
   ("unknown opcode", .UnknownOpcode), ("4001", .UnknownOpcode),
   ("decode error", .Decode), ("error while decoding payload", .Decode), ("4002", .Decode),
   ("not authenticated", .NotAuthenticated), ("4003", .NotAuthenticated),
   ("authentication failed", .AuthenticationFailed), ("4004", .AuthenticationFailed),
   ("already authenticated", .AlreadyAuthenticated), ("4005", .AlreadyAuthenticated),
   ("invalid seq", .InvalidSequenceNumber), ("4007", .InvalidSequenceNumber),
   ("rate limited", .RateLimited), ("4008", .RateLimited),
   ("session timed out", .SessionTimedOut), ("4009", .SessionTimedOut),
   ("invalid shard", .InvalidShard), ("4010", .InvalidShard),
   ("sharding required", .ShardingRequired), ("4011", .ShardingRequired),
   ("invalid api version", .InvalidAPIVersion), ("4012", .InvalidAPIVersion),
   ("invalid intent(s)", .InvalidIntents), ("invalid intent", .InvalidIntents),
   ("4013", .InvalidIntents),
   ("disallowed intent(s)", .DisallowedIntents), ("disallowed intents", .DisallowedIntents),
   ("4014", .DisallowedIntents)]

/-- The `match processed_content.as_str()` of `GatewayMessage::error`.
Rust's `match` on `&str` literals is a first-match equality chain; an arm
with several `|` patterns is written here as one test per pattern, in the
source's order, all returning the arm's value. -/
def errorMatch (s : String) : Option GatewayError :=
  if s = "unknown error" then some .Unknown
  else if s = "4000" then some .Unknown
  else if s = "unknown opcode" then some .UnknownOpcode
  else if s = "4001" then some .UnknownOpcode
  else if s = "decode error" then some .Decode
  else if s = "error while decoding payload" then some .Decode
  else if s = "4002" then some .Decode
  else if s = "not authenticated" then some .NotAuthenticated
  else if s = "4003" then some .NotAuthenticated
  else if s = "authentication failed" then some .AuthenticationFailed
  else if s = "4004" then some .AuthenticationFailed
  else if s = "already authenticated" then some .AlreadyAuthenticated
  else if s = "4005" then some .AlreadyAuthenticated
  else if s = "invalid seq" then some .InvalidSequenceNumber
  else if s = "4007" then some .InvalidSequenceNumber
  else if s = "rate limited" then some .RateLimited
  else if s = "4008" then some .RateLimited
  else if s = "session timed out" then some .SessionTimedOut
  else if s = "4009" then some .SessionTimedOut
  else if s = "invalid shard" then some .InvalidShard
  else if s = "4010" then some .InvalidShard
  else if s = "sharding required" then some .ShardingRequired
  else if s = "4011" then some .ShardingRequired
  else if s = "invalid api version" then some .InvalidAPIVersion
  else if s = "4012" then some .InvalidAPIVersion
  else if s = "invalid intent(s)" then some .InvalidIntents
  else if s = "invalid intent" then some .InvalidIntents
  else if s = "4013" then some .InvalidIntents
  else if s = "disallowed intent(s)" then some .DisallowedIntents
  else if s = "disallowed intents" then some .DisallowedIntents
  else if s = "4014" then some .DisallowedIntents
  else none

/-- The normalization step of `GatewayMessage::error`:
`content.to_lowercase().replace('.', "")` — lower-case every character,
then remove every `'.'` (Rust's `replace` removes all occurrences, not only
trailing ones).  `Char.toLower` agrees with Rust's lowering on ASCII, the
only characters appearing in the error table. -/
def normalizeContent (content : String) : String :=
  String.mk ((content.data.map Char.toLower).filter (fun c => !(c == '.')))

/-- `GatewayMessage` from `gateway/message.rs`: a wrapper around the
received tungstenite message. -/
structure GatewayMessage where
  message : Message
deriving DecidableEq

/-- `GatewayMessage::from_tungstenite_message`. -/
def GatewayMessage.from_tungstenite_message (message : Message) : GatewayMessage :=
  { message }

/-- `GatewayMessage::error`: stringify the message, lower-case it and drop
every period, then run it through the error table match. -/
def GatewayMessage.error (g : GatewayMessage) : Option GatewayError :=
  let content := g.message.display
  let processed_content := normalizeContent content
  errorMatch processed_content

/-- `GatewayMessage::is_error`: `self.error().is_some()`. -/
def GatewayMessage.is_error (g : GatewayMessage) : Bool :=
  g.error.isSome

/-- Modelled from the spec: the decoded event envelope
`GatewayReceivePayload` (declared in the repository's types module, which
is not included under `src/`).  The spec (§3, §6) describes it as an
opcode, an optional sequence number, an optional event name, and a data
body; the data body is kept as an uninterpreted string. -/
structure GatewayReceivePayload where
  op : Nat
  d : Option String
  s : Option Nat
  t : Option String
deriving DecidableEq

/-- Skip JSON whitespace at the head of a character list. -/
def skipWs : List Char → List Char
  | [] => []
  | c :: rest =>
    if c = ' ' || c = '\n' || c = '\t' || c = '\r' then skipWs rest else c :: rest

/-- Read the body of a JSON string literal after its opening quote:
the content characters and the remainder after the closing quote.
Escape sequences are not part of the model and are rejected. -/
def parseStringChars : List Char → Option (List Char × List Char)
  | [] => none
  | c :: rest =>
    if c = '"' then some ([], rest)
    else if c = '\\' then none
    else (parseStringChars rest).map (fun p => (c :: p.1, p.2))

/-- Fold a digit list into the natural number it denotes. -/
def digitsToNat (ds : List Char) : Nat :=
  ds.foldl (fun a c => a * 10 + (c.toNat - '0'.toNat)) 0

/-- Read a non-empty run of decimal digits and the remainder. -/
def parseNumber (l : List Char) : Option (Nat × List Char) :=
  match l.span Char.isDigit with
  | (ds, rest) => if ds.isEmpty then none else some (digitsToNat ds, rest)

/-- A primitive JSON value of the modelled subset: a natural number, a
string, or `null`. -/
inductive JsonVal where
  | num (n : Nat)
  | str (s : String)
  | null
deriving DecidableEq

/-- Read one primitive JSON value (number, string or null). -/
def parseValue (l : List Char) : Option (JsonVal × List Char) :=
  match skipWs l with
  | [] => none
  | c :: rest =>
    if c = '"' then (parseStringChars rest).map (fun p => (.str (String.mk p.1), p.2))
    else if c.isDigit then (parseNumber (c :: rest)).map (fun p => (.num p.1, p.2))
    else if (c :: rest).take 4 = ['n', 'u', 'l', 'l'] then some (.null, (c :: rest).drop 4)
    else none

/-- Accumulator for the fields of a payload object while parsing. -/
structure PayloadAcc where
  op : Option Nat := none
  d : Option String := none
  s : Option Nat := none
  t : Option String := none
deriving DecidableEq

/-- Record one parsed object field in the accumulator.  `op` must be a
number; `s` a number or null; `t` a string or null; `d` takes any of the
primitive values; unknown field names are ignored, as serde does by
default. -/
def setField (acc : PayloadAcc) (name : String) (v : JsonVal) : Option PayloadAcc :=
  if name = "op" then
    match v with
    | .num n => some { acc with op := some n }
    | _ => none
  else if name = "s" then
    match v with
    | .num n => some { acc with s := some n }
    | .null => some acc
    | _ => none
  else if name = "t" then
    match v with
    | .str x => some { acc with t := some x }
    | .null => some acc
    | _ => none
  else if name = "d" then
    match v with
    | .num n => some { acc with d := some (toString n) }
    | .str x => some { acc with d := some x }
    | .null => some acc
  else some acc

/-- Parse the fields of the payload object after its opening brace,
returning the payload and the remainder after the closing brace.  The
`op` field is required, as it is the one non-`Option` field of the
envelope.  Fuelled recursion; each iteration consumes at least one
character, so `length + 1` fuel at the call site is sufficient. -/
def parseFieldsLoop : Nat → List Char → PayloadAcc → Option (GatewayReceivePayload × List Char)
  | 0, _, _ => none
  | Nat.succ fuel, l, acc =>
    match skipWs l with
    | [] => none
    | c :: rest =>
      if c = '}' then
        match acc.op with
        | some opv => some ({ op := opv, d := acc.d, s := acc.s, t := acc.t }, rest)
        | none => none
      else if c = '"' then
        match parseStringChars rest with
        | none => none
        | some (nameCs, r1) =>
          match skipWs r1 with
          | ':' :: r3 =>
            match parseValue r3 with
            | none => none
            | some (v, r4) =>
              match setField acc (String.mk nameCs) v with
              | none => none
              | some acc2 =>
                match skipWs r4 with
                | ',' :: r6 => parseFieldsLoop fuel r6 acc2
                | '}' :: r6 =>
                  match acc2.op with
                  | some opv => some ({ op := opv, d := acc2.d, s := acc2.s, t := acc2.t }, r6)
                  | none => none
                | _ => none
          | _ => none
      else none

/-- Modelled from the spec: deserialization of `GatewayReceivePayload`
(`serde_json::from_str`; the payload type lives in the types module, which
is not included under `src/`).  Per the spec (§6), text frames carry
JSON-like structured payloads of the shape
`\x7bopcode, sequence?, event_name?, data\x7d`; the model parses a JSON
object with fields `op` (required number), `s`, `t`, `d` as in the
envelope, requires the input to be exhausted after the object, and fails
on anything else. -/
def parseGatewayReceivePayload (str : String) : Except String GatewayReceivePayload :=
  match skipWs str.data with
  | c :: rest =>
    if c = '{' then
      match parseFieldsLoop (rest.length + 1) rest {} with
      | some (p, r) => if skipWs r = [] then .ok p else .error "trailing characters"
      | none => .error "invalid payload"
    else .error "expected object"
  | [] => .error "eof"

/-- `GatewayMessage::payload`:
`serde_json::from_str(self.message.to_text().unwrap())`.  The outer
`Option` models the `unwrap`: `none` is the panic taken when `to_text`
fails, `some r` the deserialization result `r` returned otherwise. -/
def GatewayMessage.payload (g : GatewayMessage) :
    Option (Except String GatewayReceivePayload) :=
  match g.message.to_text with
  | some str => some (parseGatewayReceivePayload str)
  | none => none

/-- Whether a (non-panicking) `payload()` outcome is `Ok`
(`Result::is_ok` applied under the panic model). -/
def resultIsOk : Option (Except String GatewayReceivePayload) → Bool
  | some (Except.ok _) => true
  | _ => false

/-- `GatewayMessage::is_payload`: close messages are never payloads and
payloads are only text messages (`if self.message.is_close() |
!self.message.is_text() { return false; }`, a non-short-circuit Boolean
`or`), otherwise `self.payload().is_ok()`. -/
def GatewayMessage.is_payload (g : GatewayMessage) : Bool :=
  if g.message.is_close || !g.message.is_text then false
  else resultIsOk g.payload

/-- `GatewayMessage::is_empty`: `self.message.is_empty()`. -/
def GatewayMessage.is_empty (g : GatewayMessage) : Bool :=
  g.message.is_empty

/-- Modelled from the spec: `GatewayEvent<T>` (§3, §4.5), the per-event-kind
slot used by both the main gateway's Event Dispatcher and the voice
engine — "a slot holding the most recently dispatched typed payload of
kind T plus the set of subscriber callbacks for that kind".  The type
itself is declared in the gateway module, which is not included under
`src/`; `voice/gateway/events.rs` imports it as `crate::gateway::GatewayEvent`. -/
structure GatewayEvent (T : Type) where
  recent : Option T := none
  subscribers : List (T → Unit) := []

/-- Modelled from the spec: the dispatch step of §4.5 — store the payload
as most recent for the kind; callbacks observe it by shared read-only
access. -/
def GatewayEvent.dispatch {T : Type} (ev : GatewayEvent T) (p : T) : GatewayEvent T :=
  { recent := some p, subscribers := ev.subscribers }

/-- Modelled from the spec: §4.6 voice `Speaking` payload — SSRC and
speaking flag (payload type declared in the types module, not under `src/`). -/
structure Speaking where
  ssrc : Nat
  speaking : Bool

/-- Modelled from the spec: §4.6 `SsrcDefinition` payload — SSRC ↔ user
mapping. -/
structure SsrcDefinition where
  ssrc : Nat
  user_id : Nat

/-- Modelled from the spec: §4.6 `VoiceClientDisconnection` payload —
membership-set removal. -/
structure VoiceClientDisconnection where
  user_id : Nat

/-- Modelled from the spec: §4.6 `VoiceMediaSinkWants` payload —
bitrate/resolution capability advertised by the server. -/
structure VoiceMediaSinkWants where
  any : Nat

/-- Modelled from the spec: §4.6 client-connect flags payload
(membership-set addition; exact fields are not specified). -/
structure VoiceClientConnectFlags where
  user_id : Nat
  flags : Nat

/-- Modelled from the spec: §4.6 client-connect platform payload
(membership-set addition; exact fields are not specified). -/
structure VoiceClientConnectPlatform where
  user_id : Nat
  platform : String

/-- Modelled from the spec: §4.6 voice ready payload — SSRC and UDP
connection info. -/
structure VoiceReady where
  ssrc : Nat
  ip : String
  port : Nat

/-- Modelled from the spec: §4.6 backend-version payload. -/
structure VoiceBackendVersion where
  voice : String

/-- Modelled from the spec: §4.6 session description — negotiated
encryption mode/key. -/
structure SessionDescription where
  mode : String
  secret_key : List Nat

/-- Modelled from the spec: §4.6 session update payload. -/
structure SessionUpdate where
  changed : Bool

/-- Modelled from the spec: the voice gateway error type raised on the
voice channel's error event (declared in the errors module, not under
`src/`). -/
structure VoiceGatewayError where
  code : Nat

/-- `VoiceEvents` from `voice/gateway/events.rs`: one `GatewayEvent<T>`
slot per voice event kind, field for field as in the source. -/
structure VoiceEvents where
  voice_ready : GatewayEvent VoiceReady
  backend_version : GatewayEvent VoiceBackendVersion
  session_description : GatewayEvent SessionDescription
  session_update : GatewayEvent SessionUpdate
  speaking : GatewayEvent Speaking
  ssrc_definition : GatewayEvent SsrcDefinition
  client_disconnect : GatewayEvent VoiceClientDisconnection
  client_connect_flags : GatewayEvent VoiceClientConnectFlags
  client_connect_platform : GatewayEvent VoiceClientConnectPlatform
  media_sink_wants : GatewayEvent VoiceMediaSinkWants
  error : GatewayEvent VoiceGatewayError

/-- The field names of the `VoiceEvents` struct, in source order. -/
def VoiceEvents.fieldNames : List String :=
  ["voice_ready", "backend_version", "session_description", "session_update",
   "speaking", "ssrc_definition", "client_disconnect", "client_connect_flags",
   "client_connect_platform", "media_sink_wants", "error"]

/-- `InviteFlags` from `types/schema/channel.rs`: a `bitflags` type over
`u64` with `GUEST = 1 << 0` and `VIEWED = 1 << 1`. -/
structure InviteFlags where
  bits : Nat
deriving DecidableEq

/-- The `GUEST` flag bit. -/
def InviteFlags.GUEST : Nat := 1 <<< 0

/-- The `VIEWED` flag bit. -/
def InviteFlags.VIEWED : Nat := 1 <<< 1

/-- `InviteFlags::all().bits()`: the union of all defined flag bits. -/
def InviteFlags.allBits : Nat := InviteFlags.GUEST ||| InviteFlags.VIEWED

/-- The `bitflags` crate's `from_bits`: truncate to the defined bits and
succeed only when nothing was truncated (no unknown bits set). -/
def InviteFlags.from_bits (v : Nat) : Option InviteFlags :=
  let truncated := v &&& InviteFlags.allBits
  if truncated = v then some ⟨v⟩ else none

/-- The `visit_u64` of `InviteFlags`' `Deserialize` impl:
`InviteFlags::from_bits(v).ok_or(serde::de::Error::custom(Error::InvalidFlags(v)))`.
The custom serde error is determined by the raw value `v`, so the error
case carries `v` itself. -/
def InviteFlags.visit_u64 (v : Nat) : Except Nat InviteFlags :=
  match InviteFlags.from_bits v with
  | some f => .ok f
  | none => .error v

/-- `InviteFlags::deserialize` for an integer input: `deserialize_u64`
hands the raw `u64` to the visitor's `visit_u64`. -/
def InviteFlags.deserialize (v : Nat) : Except Nat InviteFlags :=
  InviteFlags.visit_u64 v

/-- Unfolding of `GatewayMessage.error` through its local bindings. -/
theorem GatewayMessage.error_def (g : GatewayMessage) :
    g.error = errorMatch (normalizeContent g.message.display) := rfl

/-- Bool-level check of the error-table key facts: every key is
period-free, already lower-case, brace-free, and matched by `errorMatch`
to exactly its table entry. -/
theorem tableCheck : errorTable.all
    (fun p => ((p.1.data.filter (fun c => !(c == '.'))) == p.1.data)
      && ((p.1.data.map Char.toLower) == p.1.data)
      && (errorMatch p.1 == some p.2)
      && (decide ('{' ∉ p.1.data))) = true := by decide

/-- Every key of the error table is period-free (so normalization fixes
it), already lower-case, and matched by `errorMatch` to exactly its table
entry. -/
theorem tableSound : ∀ p ∈ errorTable,
    (p.1.data.filter (fun c => !(c == '.')) = p.1.data) ∧
    (p.1.data.map Char.toLower = p.1.data) ∧
    errorMatch p.1 = some p.2 := by
  intro p hp
  have h := List.all_eq_true.1 tableCheck p hp
  simp only [Bool.and_eq_true, beq_iff_eq] at h
  exact ⟨h.1.1.1, h.1.1.2, h.1.2⟩

/-- No key of the error table contains an opening brace. -/
theorem tableNoBrace : ∀ p ∈ errorTable, '{' ∉ p.1.data := by
  intro p hp
  have h := List.all_eq_true.1 tableCheck p hp
  simp only [Bool.and_eq_true, beq_iff_eq, decide_eq_true_eq] at h
  exact h.2

set_option maxHeartbeats 1600000 in
/-- A string that is not a key of the error table is not classified: every
equality test of the match chain fails, so the default arm is taken. -/
theorem errorMatch_none_of_not_mem (s : String)
    (h : s ∉ errorTable.map Prod.fst) : errorMatch s = none := by
  unfold errorMatch
  iterate 31 rw [if_neg (fun hc => h (by rw [hc]; decide))]

/-- A character surviving whitespace skipping at the head was in the list. -/
theorem skipWs_cons_mem {l r : List Char} {c : Char} (h : skipWs l = c :: r) :
    c ∈ l := by
  induction l with
  | nil => simp [skipWs] at h
  | cons x xs ih =>
    unfold skipWs at h
    by_cases hx : (x = ' ' || x = '\n' || x = '\t' || x = '\r') = true
    · rw [if_pos hx] at h
      exact List.mem_cons_of_mem _ (ih h)
    · rw [if_neg hx] at h
      cases h
      exact List.mem_cons_self _ _

/-- A successfully parsed payload string contains an opening brace. -/
theorem parse_ok_brace {str : String} {p : GatewayReceivePayload}
    (h : parseGatewayReceivePayload str = .ok p) : '{' ∈ str.data := by
  unfold parseGatewayReceivePayload at h
  cases heq : skipWs str.data with
  | nil => rw [heq] at h; exact Except.noConfusion h
  | cons c rest =>
    rw [heq] at h
    by_cases hc : c = '{'
    · exact hc ▸ skipWs_cons_mem heq
    · have h' : (if c = '{' then
          (match parseFieldsLoop (rest.length + 1) rest {} with
           | some (q, r) => if skipWs r = [] then Except.ok q else Except.error "trailing characters"
           | none => Except.error "invalid payload")
          else (Except.error "expected object")) = Except.ok p := h
      rw [if_neg hc] at h'
      exact Except.noConfusion h'

/-- Normalization preserves the presence of an opening brace: `'{'` is
neither upper-case nor a period. -/
theorem brace_mem_normalize {str : String} (h : '{' ∈ str.data) :
    '{' ∈ (normalizeContent str).data := by
  unfold normalizeContent
  simp only [String.data]
  refine List.mem_filter.2 ⟨?_, by decide⟩
  exact List.mem_map.2 ⟨'{', h, by decide⟩

/-- A message that classifies as a payload is never classified as an
error: `is_payload` requires the frame to be text and its content to parse
as a payload object, the parsed content therefore contains `'{'`, and no
error-table key does. -/
theorem is_payload_imp_error_none (g : GatewayMessage)
    (h : g.is_payload = true) : g.error = none := by
  rcases g with ⟨m⟩
  unfold GatewayMessage.is_payload at h
  cases m with
  | binary d => simp [Message.is_close, Message.is_text] at h
  | ping d => simp [Message.is_close, Message.is_text] at h
  | pong d => simp [Message.is_close, Message.is_text] at h
  | close c => simp [Message.is_close, Message.is_text] at h
  | text str =>
    simp only [Message.is_close, Message.is_text, Bool.not_true, Bool.or_false,
      if_false, Bool.false_or] at h
    have hpl : GatewayMessage.payload ⟨Message.text str⟩ =
        some (parseGatewayReceivePayload str) := rfl
    rw [hpl] at h
    cases hp : parseGatewayReceivePayload str with
    | error e => rw [hp] at h; simp [resultIsOk] at h
    | ok p =>
      have hbrace : '{' ∈ str.data := parse_ok_brace hp
      have hdisp : Message.display (Message.text str) = str := rfl
      rw [GatewayMessage.error_def]
      simp only [hdisp]
      apply errorMatch_none_of_not_mem
      intro hmem
      rcases List.mem_map.1 hmem with ⟨q, hq, hqs⟩
      exact tableNoBrace q hq (hqs ▸ brace_mem_normalize hbrace)

/-- Rebuilding a string from its character data is the identity. -/
theorem str_mk_data (s : String) : String.mk s.data = s := rfl

/-- String append concatenates character data. -/
theorem str_data_append (a b : String) : (a ++ b).data = a.data ++ b.data := rfl

/-- Normalizing a case variant of a period-free, lower-case key, with or
without one trailing period, yields the key itself. -/
theorem normalize_case_variant {base key : String}
    (hfree : key.data.filter (fun c => !(c == '.')) = key.data)
    (hcase : base.data.map Char.toLower = key.data) :
    normalizeContent base = key ∧ normalizeContent (base ++ ".") = key := by
  constructor
  · unfold normalizeContent
    rw [hcase, hfree, str_mk_data]
  · unfold normalizeContent
    rw [str_data_append, List.map_append, hcase]
    have hdot : (String.data ".").map Char.toLower = ['.'] := by decide
    rw [show (".").data = ['.'] from rfl]
    rw [show List.map Char.toLower ['.'] = ['.'] from by decide]
    rw [List.filter_append, hfree]
    rw [show List.filter (fun c => !(c == '.')) ['.'] = [] from by decide]
    rw [List.append_nil, str_mk_data]

/-- C1: for every entry of the error table, `GatewayMessage::error` on a
message whose textual content is the entry's key (its human-readable
phrase or numeric close-code string) in any letter case, with or without
one trailing period, returns `some` of exactly the mapped `GatewayError`
variant. -/
theorem c1_error_table_match (g : GatewayMessage) (key base : String)
    (e : GatewayError) (hk : (key, e) ∈ errorTable)
    (hcase : base.data.map Char.toLower = key.data)
    (hdisp : g.message.display = base ∨ g.message.display = base ++ ".") :
    g.error = some e := by
  have hfacts := tableSound (key, e) hk
  have hnorm := normalize_case_variant hfacts.1 hcase
  rw [GatewayMessage.error_def]
  rcases hdisp with hd | hd <;> rw [hd]
  · rw [hnorm.1]; exact hfacts.2.2
  · rw [hnorm.2]; exact hfacts.2.2

/-- C1 witness: the scenario of §8 — frame content `Rate limited.`
classifies as `RateLimited`, via the table entry `rate limited`. -/
theorem c1_error_table_match_witness :
    (GatewayMessage.mk (Message.text "Rate limited.")).error =
      some GatewayError.RateLimited :=
  c1_error_table_match _ "rate limited" "Rate limited" GatewayError.RateLimited
    (by decide) (by decide) (Or.inr (by decide))

/-- C2 counterexample: the claim predicts that `40.00` — which differs
from the table entry `4000` only by an interior, non-trailing period — is
unmatched and yields `None`; the code removes every period, so it matches
and yields `Some(Unknown)`. -/
theorem c2_interior_period_cex :
    (GatewayMessage.mk (Message.text "40.00")).error = some GatewayError.Unknown ∧
    ((GatewayMessage.mk (Message.text "40.00")).error == none) = false := by
  constructor <;> decide

/-- C2 (amended): error classification normalizes the textual content by
lower-casing it and removing every period (interior ones included, not
only trailing ones); for every frame whose content after that
normalization is not one of the table's phrases or close-code strings,
`error()` returns `None`. -/
theorem c2_unmatched_none (g : GatewayMessage)
    (h : normalizeContent g.message.display ∉ errorTable.map Prod.fst) :
    g.error = none := by
  rw [GatewayMessage.error_def]
  exact errorMatch_none_of_not_mem _ h

/-- C2 witness: content `hello` normalizes to `hello`, which is not a
table key, and is not classified as an error. -/
theorem c2_unmatched_none_witness :
    (GatewayMessage.mk (Message.text "hello")).error = none :=
  c2_unmatched_none (GatewayMessage.mk (Message.text "hello")) (by decide)

/-- C3 counterexample: the claim says a normal (non-close) text frame has
`error() = None` and `is_error() = false` regardless of its textual
content; a text frame with content `4008` is non-close text and
nevertheless classifies as `RateLimited`, because `error()` never
inspects the frame type. -/
theorem c3_text_frame_error_cex :
    (Message.text "4008").is_text = true ∧
    (Message.text "4008").is_close = false ∧
    (GatewayMessage.mk (Message.text "4008")).error = some GatewayError.RateLimited ∧
    (GatewayMessage.mk (Message.text "4008")).is_error = true := by
  refine ⟨rfl, rfl, by decide, by decide⟩

/-- C3 (amended): `error()` inspects only the message's textual content,
never the frame type, so a non-close text frame whose content lexically
matches the error table does produce a `GatewayError`; however, no message
that actually classifies as a payload (`is_payload() = true`) is ever
classified as an error: its `error()` is `None` and `is_error()` is
`false`. -/
theorem c3_payload_never_error (g : GatewayMessage)
    (h : g.is_payload = true) : g.error = none ∧ g.is_error = false := by
  have he := is_payload_imp_error_none g h
  exact ⟨he, by simp [GatewayMessage.is_error, he]⟩

/-- C3 witness: a text frame carrying the payload object
`\x7b"op":11\x7d` is a payload and is not an error. -/
theorem c3_payload_never_error_witness :
    (GatewayMessage.mk (Message.text "\x7b\"op\":11\x7d")).error = none ∧
    (GatewayMessage.mk (Message.text "\x7b\"op\":11\x7d")).is_error = false :=
  c3_payload_never_error (GatewayMessage.mk (Message.text "\x7b\"op\":11\x7d"))
    (by decide)

/-- C4: for every text frame (text frames are never close frames),
`is_payload()` returns exactly whether decoding the content as a
`GatewayReceivePayload` succeeds (`payload()` returns `Ok`); in
particular a structurally malformed text frame — e.g. content
`not json` — has `is_payload() = false` even though it is a text frame. -/
theorem c4_is_payload_iff_decode :
    (∀ str : String,
      (GatewayMessage.mk (Message.text str)).is_payload =
        resultIsOk (GatewayMessage.mk (Message.text str)).payload) ∧
    (GatewayMessage.mk (Message.text "not json")).is_payload = false ∧
    (Message.text "not json").is_text = true := by
  refine ⟨fun str => rfl, by decide, rfl⟩

/-- C5: binary, ping, pong and close frames are never payloads, whatever
their content — `is_payload()` short-circuits on the frame type; the last
two conjuncts exhibit a close frame whose reason is a perfectly valid
payload object and is still not a payload. -/
theorem c5_nonpayload_frames :
    (∀ d : List Nat, (GatewayMessage.mk (Message.binary d)).is_payload = false) ∧
    (∀ d : List Nat, (GatewayMessage.mk (Message.ping d)).is_payload = false) ∧
    (∀ d : List Nat, (GatewayMessage.mk (Message.pong d)).is_payload = false) ∧
    (∀ c : Option CloseFrame,
      (GatewayMessage.mk (Message.close c)).is_payload = false) ∧
    resultIsOk (some (parseGatewayReceivePayload "\x7b\"op\":11\x7d")) = true ∧
    (GatewayMessage.mk
      (Message.close (some ⟨1000, "\x7b\"op\":11\x7d"⟩))).is_payload = false := by
  exact ⟨fun d => rfl, fun d => rfl, fun d => rfl, fun c => rfl, by decide, rfl⟩

/-- C6: the error and payload classifications are mutually exclusive —
for no message are `is_error()` and `is_payload()` both true. -/
theorem c6_error_payload_exclusive (g : GatewayMessage) :
    (g.is_error && g.is_payload) = false := by
  cases hp : g.is_payload with
  | false => simp
  | true =>
    have he := is_payload_imp_error_none g hp
    simp [GatewayMessage.is_error, he]

/-- C7: classification is deterministic and depends only on the wrapped
frame — two `GatewayMessage`s carrying equal frames agree on `error`,
`is_error`, `payload` and `is_payload` (in this pure embedding repeated
calls are literally the same value, and no method mutates the message). -/
theorem c7_classification_pure (g1 g2 : GatewayMessage)
    (h : g1.message = g2.message) :
    g1.error = g2.error ∧ g1.is_error = g2.is_error ∧
    g1.payload = g2.payload ∧ g1.is_payload = g2.is_payload ∧ g1 = g2 := by
  cases g1
  cases g2
  cases h
  exact ⟨rfl, rfl, rfl, rfl, rfl⟩

/-- C7 witness: instantiation at two equal text frames. -/
theorem c7_classification_pure_witness :
    (GatewayMessage.mk (Message.text "hi")).error =
      (GatewayMessage.mk (Message.text "hi")).error ∧
    (GatewayMessage.mk (Message.text "hi")).is_error =
      (GatewayMessage.mk (Message.text "hi")).is_error ∧
    (GatewayMessage.mk (Message.text "hi")).payload =
      (GatewayMessage.mk (Message.text "hi")).payload ∧
    (GatewayMessage.mk (Message.text "hi")).is_payload =
      (GatewayMessage.mk (Message.text "hi")).is_payload ∧
    GatewayMessage.mk (Message.text "hi") = GatewayMessage.mk (Message.text "hi") :=
  c7_classification_pure (GatewayMessage.mk (Message.text "hi"))
    (GatewayMessage.mk (Message.text "hi")) rfl

/-- C8 counterexample: the claim lists `client_connect` among the event
kinds with their own `GatewayEvent<T>` slot, but `VoiceEvents` has no
field of that name — client connect is split into `client_connect_flags`
and `client_connect_platform`. -/
theorem c8_no_client_connect_slot_cex :
    (VoiceEvents.fieldNames.contains "client_connect") = false ∧
    (VoiceEvents.fieldNames.contains "client_connect_flags") = true ∧
    (VoiceEvents.fieldNames.contains "client_connect_platform") = true := by
  refine ⟨by decide, by decide, by decide⟩

/-- C8 (amended): the voice engine's state exposes, for the event kinds
speaking, ssrc_definition, client_disconnect and media_sink_wants, a
`GatewayEvent<T>` slot of the corresponding payload type; client connect
is exposed through two such slots (`client_connect_flags` and
`client_connect_platform`) rather than one `client_connect` slot; all use
the same slot-plus-subscribers `GatewayEvent` shape as the main gateway's
Event Dispatcher, with one dispatch idiom storing the payload as most
recent while preserving the subscriber list. -/
theorem c8_voice_event_slots (v : VoiceEvents) (a : Speaking)
    (b : SsrcDefinition) (c : VoiceClientDisconnection) (d : VoiceMediaSinkWants)
    (e : VoiceClientConnectFlags) (f : VoiceClientConnectPlatform) :
    ((v.speaking.dispatch a).recent = some a ∧
      (v.speaking.dispatch a).subscribers = v.speaking.subscribers) ∧
    ((v.ssrc_definition.dispatch b).recent = some b ∧
      (v.ssrc_definition.dispatch b).subscribers = v.ssrc_definition.subscribers) ∧
    ((v.client_disconnect.dispatch c).recent = some c ∧
      (v.client_disconnect.dispatch c).subscribers = v.client_disconnect.subscribers) ∧
    ((v.media_sink_wants.dispatch d).recent = some d ∧
      (v.media_sink_wants.dispatch d).subscribers = v.media_sink_wants.subscribers) ∧
    ((v.client_connect_flags.dispatch e).recent = some e ∧
      (v.client_connect_flags.dispatch e).subscribers = v.client_connect_flags.subscribers) ∧
    ((v.client_connect_platform.dispatch f).recent = some f ∧
      (v.client_connect_platform.dispatch f).subscribers =
        v.client_connect_platform.subscribers) ∧
    (VoiceEvents.fieldNames.contains "speaking" = true ∧
      VoiceEvents.fieldNames.contains "ssrc_definition" = true ∧
      VoiceEvents.fieldNames.contains "client_disconnect" = true ∧
      VoiceEvents.fieldNames.contains "media_sink_wants" = true ∧
      VoiceEvents.fieldNames.contains "client_connect" = false) :=
  ⟨⟨rfl, rfl⟩, ⟨rfl, rfl⟩, ⟨rfl, rfl⟩, ⟨rfl, rfl⟩, ⟨rfl, rfl⟩, ⟨rfl, rfl⟩,
    by decide, by decide, by decide, by decide, by decide⟩

/-- C9 counterexample: the claim gives close frames as an example of
frames whose text conversion fails (and so panics in `payload()`); in
fact `to_text` on a close frame always succeeds — an empty close frame
converts to the empty string, and `payload()` on it returns a
deserialization error, not a panic. -/
theorem c9_close_to_text_ok_cex :
    (Message.close none).to_text = some "" ∧
    (GatewayMessage.mk (Message.close none)).payload =
      some (Except.error "eof") ∧
    (Message.close (some ⟨1002, "abc"⟩)).to_text = some "abc" := by
  exact ⟨rfl, rfl, rfl⟩

/-- C9 (amended): `payload()` is partial — whenever `to_text()` fails
(possible only for binary/ping/pong frames with non-UTF-8 content), the
internal `to_text().unwrap()` panics (modelled as `none`) instead of
returning a deserialization error; close frames always convert to text
(their reason string), so they never take the panic branch; and under the
guard `is_payload()` performs first, the panic branch is unreachable: on
every text frame `payload()` returns a result. -/
theorem c9_payload_panic_domain (g : GatewayMessage) :
    (g.message.to_text = none → g.payload = none) ∧
    (g.message.is_text = true → g.payload.isSome = true) ∧
    (∀ c : Option CloseFrame, ((Message.close c).to_text).isSome = true) := by
  refine ⟨?_, ?_, ?_⟩
  · intro h
    unfold GatewayMessage.payload
    rw [h]
  · intro h
    rcases g with ⟨m⟩
    cases m <;> simp_all [Message.is_text, GatewayMessage.payload, Message.to_text]
  · intro c
    cases c <;> rfl

/-- C9 witness: a binary frame with the invalid UTF-8 byte `0xFF` panics
in `payload()` (modelled `none`), while a text frame always gets a
result. -/
theorem c9_payload_panic_domain_witness :
    (GatewayMessage.mk (Message.binary [255])).payload = none ∧
    (GatewayMessage.mk (Message.text "4008")).payload.isSome = true :=
  ⟨(c9_payload_panic_domain (GatewayMessage.mk (Message.binary [255]))).1 (by decide),
    (c9_payload_panic_domain (GatewayMessage.mk (Message.text "4008"))).2.1 rfl⟩

/-- C10: deserializing `InviteFlags` from a raw `u64` value `v` succeeds
with exactly the flags whose bits are `v` if and only if `v`'s bits are a
subset of `GUEST | VIEWED`, i.e. `v ≤ 3`; every other `u64` yields a
deserialization error (carrying `v`, as `Error::InvalidFlags(v)` does)
rather than silently dropping the unknown bits. -/
theorem c10_invite_flags_deserialize (v : Nat) (hv : v < 2 ^ 64) :
    (InviteFlags.deserialize v = Except.ok ⟨v⟩ ↔ v ≤ 3) ∧
    (3 < v → InviteFlags.deserialize v = Except.error v) := by
  have hand : v &&& InviteFlags.allBits = v ↔ v ≤ 3 := by
    constructor
    · intro h
      have hle : v &&& InviteFlags.allBits ≤ 3 := by
        have := Nat.and_le_right (n := v) (m := InviteFlags.allBits)
        simpa [InviteFlags.allBits, InviteFlags.GUEST, InviteFlags.VIEWED] using this
      exact h ▸ hle
    · intro h
      interval_cases v <;> decide
  unfold InviteFlags.deserialize InviteFlags.visit_u64 InviteFlags.from_bits
  constructor
  · constructor
    · intro h
      by_cases hc : v &&& InviteFlags.allBits = v
      · exact hand.1 hc
      · rw [if_neg hc] at h
        exact Except.noConfusion h
    · intro h
      rw [if_pos (hand.2 h)]
  · intro h
    have hc : ¬(v &&& InviteFlags.allBits = v) := fun hc => by
      have := hand.1 hc
      omega
    rw [if_neg hc]

/-- C10 witness: `2` (the `VIEWED` bit alone) deserializes to flags with
bits `2`, and `4` (an undefined bit) is rejected with an error carrying
`4`. -/
theorem c10_invite_flags_deserialize_witness :
    InviteFlags.deserialize 2 = Except.ok ⟨2⟩ ∧
    InviteFlags.deserialize 4 = Except.error 4 :=
  ⟨(c10_invite_flags_deserialize 2 (by norm_num)).1.mpr (by norm_num),
    (c10_invite_flags_deserialize 4 (by norm_num)).2 (by norm_num)⟩
